import Mathlib

/-!
Verification of the axpress-api core: the cache-aside stats service
(`src/services/ethos-stats-service.ts`), the Redis repository
(`src/repositories/redis-repository.ts`) and the two refresh-scheduler
variants (`src/services/ethos-stats-scheduler.ts` and the flag-based
variant shipped alongside `app.ts`).

The JavaScript code is shallowly embedded: JSON documents become an
inductive `Json` type, the store becomes an association list of
serialized strings, thrown `Error` objects become `Except String`
(the string is the error message), and every external call outcome
(axios request, Redis round-trip) is an explicit input parameter.
Each service operation returns the list of observable effects
(HTTP requests, store reads/writes, log records) next to its result,
so that "exactly one fetch" style properties are statements about
that list.
-/

/-- JSON values, the model of the JavaScript values the service caches.
`Json.null` doubles as the JavaScript `null` value, so the repository
returning `null` for an absent key and `JSON.parse` returning `null`
for the text `"null"` land on the same constructor, exactly as the two
collapse onto the same value in JavaScript. -/
inductive Json where
  | null : Json
  | bool : Bool → Json
  | num : Int → Json
  | str : String → Json
  | arr : List Json → Json
  | obj : List (String × Json) → Json
deriving Repr

/-- Model of the JavaScript check `x !== null` (specialized to values
this service handles, where the only nullish value is `null`). -/
def Json.isNull : Json → Bool
  | Json.null => true
  | _ => false

/-- Escape a character the way `JSON.stringify` escapes string data
(quote, backslash, newline; other characters are emitted verbatim). -/
def escapeChar (c : Char) : String :=
  if c = '"' then "\\\""
  else if c = '\\' then "\\\\"
  else if c = '\n' then "\\n"
  else String.singleton c

/-- Escape a whole string for JSON output. -/
def escapeString (s : String) : String :=
  String.join (s.data.map escapeChar)

mutual

/-- Model of `JSON.stringify` on `Json` values (no indentation, the
form the repository writes to Redis). -/
def stringifyJson : Json → String
  | Json.null => "null"
  | Json.bool true => "true"
  | Json.bool false => "false"
  | Json.num n => toString n
  | Json.str s => "\"" ++ escapeString s ++ "\""
  | Json.arr xs => "[" ++ stringifyElems xs ++ "]"
  | Json.obj fs => "\x7b" ++ stringifyFields fs ++ "\x7d"

/-- Comma-separated serialization of array elements. -/
def stringifyElems : List Json → String
  | [] => ""
  | [x] => stringifyJson x
  | x :: y :: rest => stringifyJson x ++ "," ++ stringifyElems (y :: rest)

/-- Comma-separated serialization of object members. -/
def stringifyFields : List (String × Json) → String
  | [] => ""
  | [(k, v)] => "\"" ++ escapeString k ++ "\":" ++ stringifyJson v
  | (k, v) :: f :: rest =>
      "\"" ++ escapeString k ++ "\":" ++ stringifyJson v ++ "," ++
        stringifyFields (f :: rest)

end

/-- Skip JSON whitespace. -/
def skipWs : List Char → List Char
  | [] => []
  | c :: cs =>
      if c = ' ' ∨ c = '\n' ∨ c = '\t' ∨ c = '\r' then skipWs cs else c :: cs

/-- Read a run of decimal digits. -/
def readDigits : List Char → (List Char × List Char)
  | [] => ([], [])
  | c :: cs =>
      if c.isDigit then
        let r := readDigits cs
        (c :: r.1, r.2)
      else ([], c :: cs)

/-- Digits to a natural number (most significant first). -/
def digitsToNat (ds : List Char) : Nat :=
  ds.foldl (fun acc c => acc * 10 + (c.toNat - '0'.toNat)) 0

/-- Unescape one escape character inside a JSON string literal. -/
def unescapeChar (c : Char) : Option Char :=
  if c = '"' then some '"'
  else if c = '\\' then some '\\'
  else if c = 'n' then some '\n'
  else if c = 't' then some '\t'
  else if c = 'r' then some '\r'
  else if c = '/' then some '/'
  else none

/-- Read the body of a JSON string literal after the opening quote,
returning the decoded characters and the input after the closing
quote. Fuel-based; `none` is a syntax error. -/
def readStringBody : Nat → List Char → Option (List Char × List Char)
  | 0, _ => none
  | _, [] => none
  | fuel + 1, c :: cs =>
      if c = '"' then some ([], cs)
      else if c = '\\' then
        match cs with
        | [] => none
        | e :: cs2 =>
            match unescapeChar e with
            | none => none
            | some d =>
                match readStringBody fuel cs2 with
                | none => none
                | some (body, rest) => some (d :: body, rest)
      else
        match readStringBody fuel cs with
        | none => none
        | some (body, rest) => some (c :: body, rest)

mutual

/-- Recursive-descent JSON value parser, the model of the JavaScript
`JSON.parse` builtin restricted to the shapes `stringifyJson`
produces (integer numerals; no exponent or fraction forms). Fuel-based
so that the recursion is structural; `none` models a `SyntaxError`. -/
def parseVal : Nat → List Char → Option (Json × List Char)
  | 0, _ => none
  | _, [] => none
  | fuel + 1, c :: cs =>
      if c = 'n' then
        match cs with
        | 'u' :: 'l' :: 'l' :: rest => some (Json.null, rest)
        | _ => none
      else if c = 't' then
        match cs with
        | 'r' :: 'u' :: 'e' :: rest => some (Json.bool true, rest)
        | _ => none
      else if c = 'f' then
        match cs with
        | 'a' :: 'l' :: 's' :: 'e' :: rest => some (Json.bool false, rest)
        | _ => none
      else if c = '"' then
        match readStringBody fuel cs with
        | none => none
        | some (body, rest) => some (Json.str (String.mk body), rest)
      else if c = '-' then
        match readDigits cs with
        | ([], _) => none
        | (ds, rest) => some (Json.num (-(digitsToNat ds : Int)), rest)
      else if c.isDigit then
        let r := readDigits (c :: cs)
        some (Json.num (digitsToNat r.1 : Int), r.2)
      else if c = '[' then
        match skipWs cs with
        | ']' :: rest => some (Json.arr [], rest)
        | body => parseArrElems fuel body
      else if c = '\x7b' then
        match skipWs cs with
        | '\x7d' :: rest => some (Json.obj [], rest)
        | body => parseObjFields fuel body
      else none

/-- Parse the elements of a nonempty JSON array body (after `[` and
leading whitespace), including the closing bracket. -/
def parseArrElems : Nat → List Char → Option (Json × List Char)
  | 0, _ => none
  | fuel + 1, s =>
      match parseVal fuel s with
      | none => none
      | some (v, rest) =>
          match skipWs rest with
          | ',' :: rest2 =>
              match parseArrElems fuel (skipWs rest2) with
              | some (Json.arr vs, rest3) => some (Json.arr (v :: vs), rest3)
              | _ => none
          | ']' :: rest2 => some (Json.arr [v], rest2)
          | _ => none

/-- Parse the members of a nonempty JSON object body (after the open
brace and leading whitespace), including the closing brace. -/
def parseObjFields : Nat → List Char → Option (Json × List Char)
  | 0, _ => none
  | fuel + 1, s =>
      match skipWs s with
      | '"' :: cs =>
          match readStringBody fuel cs with
          | none => none
          | some (keyChars, rest) =>
              match skipWs rest with
              | ':' :: rest2 =>
                  match parseVal fuel (skipWs rest2) with
                  | none => none
                  | some (v, rest3) =>
                      match skipWs rest3 with
                      | ',' :: rest4 =>
                          match parseObjFields fuel rest4 with
                          | some (Json.obj fs, rest5) =>
                              some (Json.obj ((String.mk keyChars, v) :: fs), rest5)
                          | _ => none
                      | '\x7d' :: rest4 =>
                          some (Json.obj [(String.mk keyChars, v)], rest4)
                      | _ => none
              | _ => none
      | _ => none

end

/-- Model of `JSON.parse`: parse a complete JSON text; trailing
non-whitespace or any syntax error yields `none` (a `SyntaxError`). -/
def jsonParse (s : String) : Option Json :=
  match parseVal (s.length + 1) (skipWs s.data) with
  | none => none
  | some (j, rest) =>
      match skipWs rest with
      | [] => some j
      | _ => none

example : jsonParse "null" = some Json.null := by rfl
example : jsonParse "\x7b\"totalVotes\":10\x7d" =
    some (Json.obj [("totalVotes", Json.num 10)]) := by rfl
example : stringifyJson (Json.obj [("totalVotes", Json.num 10)]) =
    "\x7b\"totalVotes\":10\x7d" := by rfl
example : jsonParse "\x7b\"a\":" = none := by rfl

/-- Observable effects of a service operation: outbound HTTP requests,
Redis reads/writes and log records. `redisSet` records the serialized
value and the TTL argument of the call; `logError` records the
`status` field attached to the log context (`error.response?.status`
in `fetchStatsFromApi`, absent for the other error logs) and the
message. -/
inductive Ev where
  | httpGet : String → Ev
  | redisGet : String → Ev
  | redisSet : String → String → Option Nat → Ev
  | logInfo : String → Ev
  | logError : Option Nat → String → Ev
deriving Repr, DecidableEq

/-- Number of upstream HTTP requests in an effect list. -/
def countFetch (evs : List Ev) : Nat :=
  evs.countP (fun e =>
    match e with
    | Ev.httpGet _ => true
    | _ => false)

/-- Number of store-write calls in an effect list. -/
def countSet (evs : List Ev) : Nat :=
  evs.countP (fun e =>
    match e with
    | Ev.redisSet _ _ _ => true
    | _ => false)

/-- The store keys an effect list touches (reads and writes). -/
def keysUsed (evs : List Ev) : List String :=
  evs.filterMap (fun e =>
    match e with
    | Ev.redisGet k => some k
    | Ev.redisSet k _ _ => some k
    | _ => none)

/-- The Redis store contents: an association list from keys to the
serialized strings Redis holds. TTL bookkeeping stays on the
`redisSet` effect (no claim depends on expiry elapsing). -/
def Store := List (String × String)

/-- Key lookup, first binding wins (a fresh `SET` shadows the old). -/
def lookupStore : Store → String → Option String
  | [], _ => none
  | (k, v) :: rest, key => if k = key then some v else lookupStore rest key

/-- Model of a Redis `SET`/`SETEX` write: the new binding shadows any
previous one. -/
def setStore (st : Store) (key v : String) : Store :=
  (key, v) :: st

/-- Outcome of one Redis round-trip at the transport level: `none`
means the connection is healthy, `some m` means the client raised an
error with message `m`. Passed in explicitly because the network is an
input of the embedded code. -/
def RedisComm := Option String

/-- Model of `RedisRepository.get` (`src/repositories/redis-repository.ts`):
read the raw string from the client, return `null` for an absent key,
otherwise `JSON.parse` it; a `SyntaxError` is re-thrown as a parse
failure message, any other client error as a get-failure message. -/
def redisRepositoryGet (comm : RedisComm) (st : Store) (key : String) :
    List Ev × Except String Json :=
  match comm with
  | some m =>
      ([Ev.redisGet key],
       Except.error ("Redis get operation failed for key \"" ++ key ++ "\": " ++ m))
  | none =>
      match lookupStore st key with
      | none => ([Ev.redisGet key], Except.ok Json.null)
      | some raw =>
          match jsonParse raw with
          | some j => ([Ev.redisGet key], Except.ok j)
          | none =>
              ([Ev.redisGet key],
               Except.error ("Failed to parse JSON for key \"" ++ key ++
                 "\": Unexpected token"))

/-- Model of `RedisRepository.set`: `JSON.stringify` the value, then
`SETEX key ttl`/`SET key`; a client error is re-thrown as a
set-failure message and leaves the store untouched. The write effect
records the attempted call either way. -/
def redisRepositorySet (comm : RedisComm) (st : Store) (key : String)
    (value : Json) (ttl : Option Nat) : List Ev × Except String Store :=
  match comm with
  | some m =>
      ([Ev.redisSet key (stringifyJson value) ttl],
       Except.error ("Redis set operation failed for key \"" ++ key ++ "\": " ++ m))
  | none =>
      ([Ev.redisSet key (stringifyJson value) ttl],
       Except.ok (setStore st key (stringifyJson value)))

/-- The hard-coded upstream endpoint of `ethos-stats-service.ts`. -/
def ETHOS_API_URL : String :=
  "https://api.ethos.network/api/v2/votes/stats?type=attestation&activityId=223"

/-- The single cache key of `ethos-stats-service.ts`. -/
def REDIS_KEY : String := "ethos:stats"

/-- The cache TTL of `ethos-stats-service.ts` (12 hours). -/
def CACHE_TTL_SECONDS : Nat := 43200

/-- Outcome of the one `axios.get` call a fetch performs: a response
(status and parsed JSON body), a failure for which
`axios.isAxiosError` is true (message, plus `error.response?.status`
when the upstream answered non-2xx), or any other thrown error. -/
inductive AxiosOutcome where
  | success : Nat → Json → AxiosOutcome
  | axiosError : String → Option Nat → AxiosOutcome
  | otherError : String → AxiosOutcome
deriving Repr

/-- Model of `EthosStatsService.fetchStatsFromApi`: one `axios.get` of
the fixed URL; an axios failure is logged with the upstream status and
re-thrown as a fetch-failure message, any other failure as a distinct
unexpected-error message. -/
def fetchStatsFromApi (o : AxiosOutcome) : List Ev × Except String Json :=
  let pre := [Ev.logInfo "Fetching stats from Ethos API", Ev.httpGet ETHOS_API_URL]
  match o with
  | AxiosOutcome.success _ d =>
      (pre ++ [Ev.logInfo "Successfully fetched stats from Ethos API"],
       Except.ok d)
  | AxiosOutcome.axiosError m st =>
      let em := "Failed to fetch stats from Ethos API: " ++ m
      (pre ++ [Ev.logError st em], Except.error em)
  | AxiosOutcome.otherError m =>
      let em := "Unexpected error fetching stats from Ethos API: " ++ m
      (pre ++ [Ev.logError none em], Except.error em)

/-- Result of a service operation: its effects, the store afterwards
and its value-or-thrown-error. -/
structure SvcResult (α : Type) where
  events : List Ev
  store : Store
  result : Except String α

/-- Model of `EthosStatsService.getStats`: cache-aside read. Check the
cache; on a non-null hit return it; on a miss fetch upstream and cache
the payload with the TTL; any failure in the try block is re-thrown as
one wrapped get-failure message. Inputs: the transport outcome of the
Redis `GET`, the store, the axios outcome and the transport outcome of
the Redis `SET` (the latter two are unused on a hit). -/
def getStats (getComm : RedisComm) (st : Store) (o : AxiosOutcome)
    (setComm : RedisComm) : SvcResult Json :=
  match redisRepositoryGet getComm st REDIS_KEY with
  | (e1, Except.error m) =>
      let em := "Failed to get Ethos stats: " ++ m
      ⟨e1 ++ [Ev.logError none em], st, Except.error em⟩
  | (e1, Except.ok cached) =>
      if cached.isNull = false then
        ⟨e1 ++ [Ev.logInfo "Cache hit for Ethos stats"], st, Except.ok cached⟩
      else
        let e2 := [Ev.logInfo "Cache miss for Ethos stats, fetching from API"]
        match fetchStatsFromApi o with
        | (e3, Except.error m) =>
            let em := "Failed to get Ethos stats: " ++ m
            ⟨e1 ++ e2 ++ e3 ++ [Ev.logError none em], st, Except.error em⟩
        | (e3, Except.ok stats) =>
            match redisRepositorySet setComm st REDIS_KEY stats
                (some CACHE_TTL_SECONDS) with
            | (e4, Except.error m) =>
                let em := "Failed to get Ethos stats: " ++ m
                ⟨e1 ++ e2 ++ e3 ++ e4 ++ [Ev.logError none em], st,
                 Except.error em⟩
            | (e4, Except.ok st2) =>
                ⟨e1 ++ e2 ++ e3 ++ e4 ++ [Ev.logInfo "Cached Ethos stats with TTL"],
                 st2, Except.ok stats⟩

/-- Model of `EthosStatsService.refreshCache`: unconditional fetch and
overwrite; any failure in the try block is re-thrown as one wrapped
refresh-failure message. -/
def refreshCache (st : Store) (o : AxiosOutcome) (setComm : RedisComm) :
    SvcResult Unit :=
  let e0 := [Ev.logInfo "Refreshing Ethos stats cache"]
  match fetchStatsFromApi o with
  | (e1, Except.error m) =>
      let em := "Failed to refresh Ethos stats cache: " ++ m
      ⟨e0 ++ e1 ++ [Ev.logError none em], st, Except.error em⟩
  | (e1, Except.ok stats) =>
      match redisRepositorySet setComm st REDIS_KEY stats
          (some CACHE_TTL_SECONDS) with
      | (e2, Except.error m) =>
          let em := "Failed to refresh Ethos stats cache: " ++ m
          ⟨e0 ++ e1 ++ e2 ++ [Ev.logError none em], st, Except.error em⟩
      | (e2, Except.ok st2) =>
          ⟨e0 ++ e1 ++ e2 ++
             [Ev.logInfo "Successfully refreshed Ethos stats cache"],
           st2, Except.ok ()⟩

/-- The refresh interval of both scheduler variants (12 hours in ms). -/
def SCHEDULE_INTERVAL_MS : Nat := 12 * 60 * 60 * 1000

/-- State of the scheduler of `ethos-stats-scheduler.ts` (variant A)
together with the event-loop bookkeeping its execution needs. The
first two fields are the class fields `timeoutId` and `isStopping`.
`pendingTimers` models the runtime timer queue (handle and delay);
`nextHandle` generates fresh handles (starting at 1, so a stored
handle is always truthy). `activeS` counts in-flight refresh cycles
that a `start()` call is awaiting, `activeT` those spawned by a timer
callback (nothing awaits these). `begun` counts `refreshCache`
invocations, `completed` finished cycles, `calls` all `start()` calls
and `returnedStarts` the `start()` promises already resolved. Log
output is not part of the state. -/
structure StateA where
  timeoutId : Option Nat
  isStopping : Bool
  pendingTimers : List (Nat × Nat)
  nextHandle : Nat
  activeS : Nat
  activeT : Nat
  begun : Nat
  completed : Nat
  calls : Nat
  returnedStarts : Nat
deriving Repr, DecidableEq

/-- The scheduler events at which variant A's state changes: a
`start()` call, the settlement of an in-flight cycle's `refreshCache`
promise (`awaited` says whether a `start()` is awaiting that cycle,
the `Bool` after it whether the refresh succeeded), the firing of a
pending timer, and a `stop()` call. -/
inductive EvA where
  | startCall : EvA
  | cycleEnd : Bool → Bool → EvA
  | timerFire : Nat → EvA
  | stopCall : EvA
deriving Repr, DecidableEq

/-- The freshly constructed variant-A scheduler. -/
def initA : StateA :=
  ⟨none, false, [], 1, 0, 0, 0, 0, 0, 0⟩

/-- The `finally` block of variant A's `run`: schedule the next run
only after the current one finished, and only when not stopping
(`this.timeoutId = setTimeout(() => this.run(), SCHEDULE_INTERVAL_MS)`). -/
def scheduleNextA (s : StateA) : StateA :=
  if s.isStopping then s
  else
    { s with
      pendingTimers := (s.nextHandle, SCHEDULE_INTERVAL_MS) :: s.pendingTimers,
      timeoutId := some s.nextHandle,
      nextHandle := s.nextHandle + 1 }

/-- One step of variant A. `startCall`: when `timeoutId` is non-null,
warn and return; otherwise `await this.run()`, whose guard returns at
once when stopping and otherwise begins a refresh cycle that the
`start()` promise awaits. `cycleEnd`: the `catch` only logs, so the
success flag is ignored and the `finally` runs; an awaited cycle also
resolves its `start()`. `timerFire h`: the runtime removes timer `h`
from the queue and calls `run()`. `stopCall`: set `isStopping`, and
when `timeoutId` is non-null clear that timer and null the field.
Events that have no referent in the state (ending a cycle when none is
in flight, firing an unknown handle) leave the state unchanged. -/
def stepA : EvA → StateA → StateA
  | EvA.startCall, s =>
      if s.timeoutId ≠ none then
        { s with calls := s.calls + 1, returnedStarts := s.returnedStarts + 1 }
      else if s.isStopping then
        { s with calls := s.calls + 1, returnedStarts := s.returnedStarts + 1 }
      else
        { s with
          calls := s.calls + 1,
          begun := s.begun + 1,
          activeS := s.activeS + 1 }
  | EvA.cycleEnd awaited _, s =>
      if awaited then
        if s.activeS = 0 then s
        else
          scheduleNextA
            { s with
              activeS := s.activeS - 1,
              completed := s.completed + 1,
              returnedStarts := s.returnedStarts + 1 }
      else
        if s.activeT = 0 then s
        else
          scheduleNextA
            { s with activeT := s.activeT - 1, completed := s.completed + 1 }
  | EvA.timerFire h, s =>
      if s.pendingTimers.any (fun t => t.1 = h) then
        let s1 := { s with pendingTimers := s.pendingTimers.filter (fun t => t.1 ≠ h) }
        if s1.isStopping then s1
        else { s1 with begun := s1.begun + 1, activeT := s1.activeT + 1 }
      else s
  | EvA.stopCall, s =>
      let s1 := { s with isStopping := true }
      match s1.timeoutId with
      | some h =>
          { s1 with
            pendingTimers := s1.pendingTimers.filter (fun t => t.1 ≠ h),
            timeoutId := none }
      | none => s1

/-- Run variant A over an event trace from a given state. -/
def foldA (t : List EvA) (s : StateA) : StateA :=
  t.foldl (fun st e => stepA e st) s

/-- Run variant A over an event trace from the initial state. -/
def runA (t : List EvA) : StateA :=
  foldA t initA

/-- State of the flag-based scheduler variant (variant B, the
`EthosStatsScheduler` with `isRunning`/`isStarted` fields shipped next
to `app.ts`), with the same event-loop bookkeeping as `StateA`. In
this variant at most one cycle can ever be in flight, marked by the
Boolean class field `isRunning`; `start()` fires `void this.run()` and
resolves without awaiting, so `startsReturned` counts every `start()`
call as soon as its event is processed. -/
structure StateB where
  timeoutId : Option Nat
  isStopping : Bool
  isRunning : Bool
  isStarted : Bool
  pendingTimers : List (Nat × Nat)
  nextHandle : Nat
  begun : Nat
  completed : Nat
  calls : Nat
  startsReturned : Nat
deriving Repr, DecidableEq

/-- Events of variant B; a cycle needs no `awaited` flag because
nothing ever awaits `run()` here. -/
inductive EvB where
  | startCall : EvB
  | cycleEnd : Bool → EvB
  | timerFire : Nat → EvB
  | stopCall : EvB
deriving Repr, DecidableEq

/-- The freshly constructed variant-B scheduler. -/
def initB : StateB :=
  ⟨none, false, false, false, [], 1, 0, 0, 0, 0⟩

/-- The `finally` block of variant B's `run`: clear `isRunning`, then
schedule the next run when not stopping. -/
def scheduleNextB (s : StateB) : StateB :=
  if s.isStopping then s
  else
    { s with
      pendingTimers := (s.nextHandle, SCHEDULE_INTERVAL_MS) :: s.pendingTimers,
      timeoutId := some s.nextHandle,
      nextHandle := s.nextHandle + 1 }

/-- One step of variant B. `startCall`: when `isStarted`, warn and
return; otherwise clear `isStopping`, set `isStarted` and run the
synchronous prefix of `void this.run()`, whose guard returns when a
cycle is already running and otherwise sets `isRunning` and begins the
cycle; `start()` resolves within the same event in every case.
`cycleEnd`: requires a running cycle; the `catch` only logs, so the
flag is ignored; the `finally` clears `isRunning` and reschedules when
not stopping. `timerFire` and `stopCall` are as in variant A, except
that `run()` is also guarded by `isRunning` and `stop()` clears
`isStarted`. -/
def stepB : EvB → StateB → StateB
  | EvB.startCall, s =>
      if s.isStarted then
        { s with calls := s.calls + 1, startsReturned := s.startsReturned + 1 }
      else
        let s1 := { s with
          isStopping := false,
          isStarted := true,
          calls := s.calls + 1,
          startsReturned := s.startsReturned + 1 }
        if s1.isRunning then s1
        else { s1 with isRunning := true, begun := s1.begun + 1 }
  | EvB.cycleEnd _, s =>
      if s.isRunning then
        scheduleNextB { s with isRunning := false, completed := s.completed + 1 }
      else s
  | EvB.timerFire h, s =>
      if s.pendingTimers.any (fun t => t.1 = h) then
        let s1 := { s with pendingTimers := s.pendingTimers.filter (fun t => t.1 ≠ h) }
        if s1.isStopping ∨ s1.isRunning then s1
        else { s1 with isRunning := true, begun := s1.begun + 1 }
      else s
  | EvB.stopCall, s =>
      let s1 := { s with isStopping := true, isStarted := false }
      match s1.timeoutId with
      | some h =>
          { s1 with
            pendingTimers := s1.pendingTimers.filter (fun t => t.1 ≠ h),
            timeoutId := none }
      | none => s1

/-- Run variant B over an event trace from a given state. -/
def foldB (t : List EvB) (s : StateB) : StateB :=
  t.foldl (fun st e => stepB e st) s

/-- Run variant B over an event trace from the initial state. -/
def runB (t : List EvB) : StateB :=
  foldB t initB

/-- A sample upstream payload, the document of the spec's example
scenario. -/
def sampleStats : Json := Json.obj [("totalVotes", Json.num 10)]

/-- The serialized form of `sampleStats`, as the store would hold it. -/
def sampleRaw : String := "\x7b\"totalVotes\":10\x7d"

/-- C1: on a store without the cache key, `getStats()` performs exactly
one upstream fetch and exactly one cache write with TTL 43200 seconds
and returns the fetched payload; on a store whose cache key holds a
valid (parseable, non-null) value it performs zero fetches, returns
the cached value and leaves the store unchanged. -/
theorem c1_getStats_cache_aside :
    (∀ (st : Store) (code : Nat) (d : Json),
      lookupStore st REDIS_KEY = none →
        countFetch (getStats none st (AxiosOutcome.success code d) none).events = 1 ∧
        countSet (getStats none st (AxiosOutcome.success code d) none).events = 1 ∧
        Ev.redisSet REDIS_KEY (stringifyJson d) (some CACHE_TTL_SECONDS) ∈
          (getStats none st (AxiosOutcome.success code d) none).events ∧
        (getStats none st (AxiosOutcome.success code d) none).result = Except.ok d) ∧
    (∀ (st : Store) (raw : String) (j : Json) (o : AxiosOutcome) (sc : RedisComm),
      lookupStore st REDIS_KEY = some raw →
      jsonParse raw = some j →
      j.isNull = false →
        countFetch (getStats none st o sc).events = 0 ∧
        (getStats none st o sc).result = Except.ok j ∧
        (getStats none st o sc).store = st) := by
  constructor
  · intro st code d hmiss
    simp [getStats, redisRepositoryGet, redisRepositorySet, fetchStatsFromApi,
      hmiss, Json.isNull, countFetch, countSet, List.countP_cons]
  · intro st raw j o sc hhit hparse hnn
    simp [getStats, redisRepositoryGet, hhit, hparse, hnn, countFetch,
      List.countP_cons]

/-- Witness for C1 at the spec's example scenario: an empty store with
the fetcher returning the sample payload, and a warm store holding its
serialized form. -/
theorem c1_getStats_cache_aside_witness :
    (lookupStore [] REDIS_KEY = none ∧
      countFetch (getStats none [] (AxiosOutcome.success 200 sampleStats) none).events = 1 ∧
      countSet (getStats none [] (AxiosOutcome.success 200 sampleStats) none).events = 1 ∧
      Ev.redisSet REDIS_KEY (stringifyJson sampleStats) (some CACHE_TTL_SECONDS) ∈
        (getStats none [] (AxiosOutcome.success 200 sampleStats) none).events ∧
      (getStats none [] (AxiosOutcome.success 200 sampleStats) none).result =
        Except.ok sampleStats) ∧
    (lookupStore [(REDIS_KEY, sampleRaw)] REDIS_KEY = some sampleRaw ∧
      jsonParse sampleRaw = some sampleStats ∧
      sampleStats.isNull = false ∧
      countFetch (getStats none [(REDIS_KEY, sampleRaw)]
        (AxiosOutcome.otherError "upstream down") none).events = 0 ∧
      (getStats none [(REDIS_KEY, sampleRaw)]
        (AxiosOutcome.otherError "upstream down") none).result =
          Except.ok sampleStats ∧
      (getStats none [(REDIS_KEY, sampleRaw)]
        (AxiosOutcome.otherError "upstream down") none).store =
          [(REDIS_KEY, sampleRaw)]) :=
  ⟨⟨rfl, c1_getStats_cache_aside.1 [] 200 sampleStats rfl⟩,
   ⟨rfl, rfl, rfl,
    c1_getStats_cache_aside.2 [(REDIS_KEY, sampleRaw)] sampleRaw sampleStats
      (AxiosOutcome.otherError "upstream down") none rfl rfl rfl⟩⟩

/-- C5: every failing `refreshCache()` run raises a single wrapped
refresh-failure error carrying the underlying message, and leaves no
partial state: a failed fetch performs no cache write at all, and a
failed cache write leaves the stored contents untouched. -/
theorem c5_refresh_error_atomicity :
    (∀ (st : Store) (m : String) (code : Option Nat) (sc : RedisComm),
      (refreshCache st (AxiosOutcome.axiosError m code) sc).result =
        Except.error ("Failed to refresh Ethos stats cache: " ++
          ("Failed to fetch stats from Ethos API: " ++ m)) ∧
      (refreshCache st (AxiosOutcome.axiosError m code) sc).store = st ∧
      countSet (refreshCache st (AxiosOutcome.axiosError m code) sc).events = 0) ∧
    (∀ (st : Store) (m : String) (sc : RedisComm),
      (refreshCache st (AxiosOutcome.otherError m) sc).result =
        Except.error ("Failed to refresh Ethos stats cache: " ++
          ("Unexpected error fetching stats from Ethos API: " ++ m)) ∧
      (refreshCache st (AxiosOutcome.otherError m) sc).store = st ∧
      countSet (refreshCache st (AxiosOutcome.otherError m) sc).events = 0) ∧
    (∀ (st : Store) (code : Nat) (d : Json) (m : String),
      (refreshCache st (AxiosOutcome.success code d) (some m)).result =
        Except.error ("Failed to refresh Ethos stats cache: " ++
          ("Redis set operation failed for key \"" ++ REDIS_KEY ++ "\": " ++ m)) ∧
      (refreshCache st (AxiosOutcome.success code d) (some m)).store = st) := by
  refine ⟨?_, ?_, ?_⟩
  · intro st m code sc
    simp [refreshCache, fetchStatsFromApi, countSet, List.countP_cons]
  · intro st m sc
    simp [refreshCache, fetchStatsFromApi, countSet, List.countP_cons]
  · intro st code d m
    simp [refreshCache, fetchStatsFromApi, redisRepositorySet, REDIS_KEY]

/-- C7: an axios failure (transport error or non-2xx response) yields
the fetch-failure error whose message preserves the underlying message
and whose error log carries the upstream status code exactly when one
is available; any other failure yields the distinct unexpected-error
message preserving the original message (the two channels can never
produce the same error); and every call performs exactly one upstream
request, with no retry. -/
theorem c7_fetch_error_taxonomy :
    (∀ (m : String) (code : Option Nat),
      fetchStatsFromApi (AxiosOutcome.axiosError m code) =
        ([Ev.logInfo "Fetching stats from Ethos API", Ev.httpGet ETHOS_API_URL,
          Ev.logError code ("Failed to fetch stats from Ethos API: " ++ m)],
         Except.error ("Failed to fetch stats from Ethos API: " ++ m))) ∧
    (∀ m : String,
      fetchStatsFromApi (AxiosOutcome.otherError m) =
        ([Ev.logInfo "Fetching stats from Ethos API", Ev.httpGet ETHOS_API_URL,
          Ev.logError none ("Unexpected error fetching stats from Ethos API: " ++ m)],
         Except.error ("Unexpected error fetching stats from Ethos API: " ++ m))) ∧
    (∀ (m1 m2 : String),
      (("Failed to fetch stats from Ethos API: " ++ m1) ==
        ("Unexpected error fetching stats from Ethos API: " ++ m2)) = false) ∧
    (∀ o : AxiosOutcome, countFetch (fetchStatsFromApi o).1 = 1) := by
  refine ⟨?_, ?_, ?_, ?_⟩
  · intro m code
    simp [fetchStatsFromApi]
  · intro m
    simp [fetchStatsFromApi]
  · intro m1 m2
    rw [beq_eq_false_iff_ne]
    intro h
    have h2 := congrArg String.data h
    simp [String.data_append] at h2
  · intro o
    cases o <;> simp [fetchStatsFromApi, countFetch, List.countP_cons]

/-- Counterexample for C8: running the spec's own example scenario
(empty store, fetcher returns the sample payload) the one cache write
`getStats()` performs uses the key `"ethos:stats"` — the source's
`REDIS_KEY` — and no event ever touches the key `"stats:external"`
named by the claim. -/
theorem c8_key_counterexample :
    keysUsed (getStats none [] (AxiosOutcome.success 200 sampleStats)
        none).events = ["ethos:stats", "ethos:stats"] ∧
    Ev.redisSet "ethos:stats" sampleRaw (some 43200) ∈
      (getStats none [] (AxiosOutcome.success 200 sampleStats) none).events ∧
    ((getStats none [] (AxiosOutcome.success 200 sampleStats) none).events.contains
        (Ev.redisSet "stats:external" sampleRaw (some 43200))) = false ∧
    (("ethos:stats" : String) == "stats:external") = false := by
  refine ⟨by rfl, by decide, by decide, by decide⟩

/-- C8 (amended): on a cache miss `getStats()` writes the fetched
payload under the cache key `"ethos:stats"` with value the serialized
fetched document and TTL exactly 43200 seconds, and `"ethos:stats"` is
the only store key either core entry point ever uses. -/
theorem c8_single_key_amended :
    (∀ (st : Store) (code : Nat) (d : Json),
      lookupStore st REDIS_KEY = none →
        keysUsed (getStats none st (AxiosOutcome.success code d) none).events =
          [REDIS_KEY, REDIS_KEY] ∧
        Ev.redisSet REDIS_KEY (stringifyJson d) (some CACHE_TTL_SECONDS) ∈
          (getStats none st (AxiosOutcome.success code d) none).events ∧
        (getStats none st (AxiosOutcome.success code d) none).result =
          Except.ok d) ∧
    (∀ (gc : RedisComm) (st : Store) (o : AxiosOutcome) (sc : RedisComm),
      ∀ k ∈ keysUsed (getStats gc st o sc).events, k = REDIS_KEY) ∧
    (∀ (st : Store) (o : AxiosOutcome) (sc : RedisComm),
      ∀ k ∈ keysUsed (refreshCache st o sc).events, k = REDIS_KEY) := by
  refine ⟨?_, ?_, ?_⟩
  · intro st code d hmiss
    simp [getStats, redisRepositoryGet, redisRepositorySet, fetchStatsFromApi,
      hmiss, Json.isNull, keysUsed]
  · intro gc st o sc k hk
    rcases gc with _ | m
    · rcases hlk : lookupStore st REDIS_KEY with _ | raw
      · rcases o with ⟨code, d⟩ | ⟨em, ec⟩ | em <;> rcases sc with _ | ms <;>
          simp_all [getStats, redisRepositoryGet, redisRepositorySet,
            fetchStatsFromApi, Json.isNull, keysUsed]
      · rcases hp : jsonParse raw with _ | j
        · simp_all [getStats, redisRepositoryGet, keysUsed]
        · rcases hn : j.isNull with _ | _
          · simp_all [getStats, redisRepositoryGet, keysUsed]
          · rcases o with ⟨code, d⟩ | ⟨em, ec⟩ | em <;> rcases sc with _ | ms <;>
              simp_all [getStats, redisRepositoryGet, redisRepositorySet,
                fetchStatsFromApi, keysUsed]
    · simp_all [getStats, redisRepositoryGet, keysUsed]
  · intro st o sc k hk
    rcases o with ⟨code, d⟩ | ⟨em, ec⟩ | em <;> rcases sc with _ | ms <;>
      simp_all [refreshCache, redisRepositorySet, fetchStatsFromApi, keysUsed]

/-- Witness for the amended C8 at the example scenario: the miss-path
write goes to `"ethos:stats"`, and the key appearing in the read and
the write of that run is `"ethos:stats"`. -/
theorem c8_single_key_amended_witness :
    (lookupStore [] REDIS_KEY = none ∧
      keysUsed (getStats none [] (AxiosOutcome.success 200 sampleStats)
          none).events = [REDIS_KEY, REDIS_KEY] ∧
      Ev.redisSet REDIS_KEY (stringifyJson sampleStats) (some CACHE_TTL_SECONDS) ∈
        (getStats none [] (AxiosOutcome.success 200 sampleStats) none).events ∧
      (getStats none [] (AxiosOutcome.success 200 sampleStats) none).result =
        Except.ok sampleStats) ∧
    (REDIS_KEY ∈ keysUsed (getStats none []
        (AxiosOutcome.success 200 sampleStats) none).events ∧
      REDIS_KEY = REDIS_KEY) ∧
    (REDIS_KEY ∈ keysUsed (refreshCache []
        (AxiosOutcome.success 200 sampleStats) none).events ∧
      REDIS_KEY = REDIS_KEY) :=
  ⟨⟨rfl, c8_single_key_amended.1 [] 200 sampleStats rfl⟩,
   ⟨by decide,
    c8_single_key_amended.2.1 none [] (AxiosOutcome.success 200 sampleStats)
      none REDIS_KEY (by decide)⟩,
   ⟨by decide,
    c8_single_key_amended.2.2 [] (AxiosOutcome.success 200 sampleStats)
      none REDIS_KEY (by decide)⟩⟩

/-- C10: a stored entry whose serialized content is the JSON text
`"null"` is indistinguishable from an absent key at the repository
interface — `get` returns the null marker without error, exactly as on
the empty store — and `getStats()` consequently treats it as a cache
miss: one fetch, and the entry is overwritten with the fetched
document. -/
theorem c10_null_text_is_absent :
    (∀ (rest : Store) (k : String),
      redisRepositoryGet none ((k, "null") :: rest) k =
        redisRepositoryGet none [] k) ∧
    (∀ (rest : Store) (code : Nat) (d : Json),
      countFetch (getStats none ((REDIS_KEY, "null") :: rest)
        (AxiosOutcome.success code d) none).events = 1 ∧
      (getStats none ((REDIS_KEY, "null") :: rest)
        (AxiosOutcome.success code d) none).result = Except.ok d ∧
      lookupStore (getStats none ((REDIS_KEY, "null") :: rest)
        (AxiosOutcome.success code d) none).store REDIS_KEY =
          some (stringifyJson d)) := by
  have hnull : jsonParse "null" = some Json.null := by rfl
  constructor
  · intro rest k
    simp [redisRepositoryGet, lookupStore, hnull]
  · intro rest code d
    simp [getStats, redisRepositoryGet, redisRepositorySet, fetchStatsFromApi,
      lookupStore, setStore, hnull, Json.isNull, countFetch, List.countP_cons]

/-- Once the variant-A stopping flag is set, one step keeps it set
(nothing in `ethos-stats-scheduler.ts` clears it) and begins no
refresh cycle (the guard at the top of `run()` returns). -/
theorem stoppedA_step (s : StateA) (e : EvA) (h : s.isStopping = true) :
    (stepA e s).isStopping = true ∧ (stepA e s).begun = s.begun := by
  cases e <;> simp only [stepA, scheduleNextA] <;> (repeat' split) <;> simp_all

/-- Once the variant-A stopping flag is set, no trace of further
events clears it or begins a refresh cycle. -/
theorem stoppedA_fold (t : List EvA) (s : StateA) (h : s.isStopping = true) :
    (foldA t s).isStopping = true ∧ (foldA t s).begun = s.begun := by
  induction t generalizing s with
  | nil => exact ⟨h, rfl⟩
  | cons e rest ih =>
      have hs := stoppedA_step s e h
      have hrest := ih (stepA e s) hs.1
      simp only [foldA, List.foldl_cons] at *
      exact ⟨hrest.1, hrest.2.trans hs.2⟩

/-- C2 (the code violates the claim): on the scheduler of
`ethos-stats-scheduler.ts`, calling `start()` twice from the initial
state — the second call while the first refresh cycle is still in
flight — begins two refresh cycles, both concurrently in flight,
because the `timeoutId !== null` guard is still null until the first
cycle's `finally` block runs; each begun cycle performs exactly one
upstream fetch, so this is two fetches where the claim requires one.
The flag-based variant behaves as the claim states: two `start()`
calls begin exactly one cycle. -/
theorem c2_duplicate_start_overlap :
    (runA [EvA.startCall, EvA.startCall]).begun = 2 ∧
    (runA [EvA.startCall, EvA.startCall]).activeS = 2 ∧
    (runA [EvA.startCall, EvA.startCall]).calls = 2 ∧
    (∀ (st : Store) (o : AxiosOutcome) (sc : RedisComm),
      countFetch (refreshCache st o sc).events = 1) ∧
    (runB [EvB.startCall, EvB.startCall]).begun = 1 ∧
    (runB [EvB.startCall, EvB.startCall]).calls = 2 := by
  refine ⟨by decide, by decide, by decide, ?_, by decide, by decide⟩
  intro st o sc
  rcases o with ⟨code, d⟩ | ⟨em, ec⟩ | em <;> rcases sc with _ | ms <;>
    simp [refreshCache, redisRepositorySet, fetchStatsFromApi, countFetch,
      List.countP_cons]

/-- C3: a refresh cycle that fails is handled exactly like one that
succeeds — the catch block only logs, so the scheduler state after a
failed settlement equals the state after a successful one — and in
either case, when not stopping, the next cycle is scheduled on a fresh
timer with the normal 12-hour interval; the failure never escapes the
step. -/
theorem c3_refresh_failure_resilience :
    (∀ (s : StateA) (awaited : Bool),
      stepA (EvA.cycleEnd awaited false) s = stepA (EvA.cycleEnd awaited true) s) ∧
    (∀ (s : StateA) (ok : Bool),
      s.isStopping = false → 0 < s.activeS →
        (stepA (EvA.cycleEnd true ok) s).pendingTimers =
          (s.nextHandle, SCHEDULE_INTERVAL_MS) :: s.pendingTimers ∧
        (stepA (EvA.cycleEnd true ok) s).timeoutId = some s.nextHandle) ∧
    (∀ (s : StateA) (ok : Bool),
      s.isStopping = false → 0 < s.activeT →
        (stepA (EvA.cycleEnd false ok) s).pendingTimers =
          (s.nextHandle, SCHEDULE_INTERVAL_MS) :: s.pendingTimers ∧
        (stepA (EvA.cycleEnd false ok) s).timeoutId = some s.nextHandle) := by
  refine ⟨?_, ?_, ?_⟩
  · intro s aw; rfl
  · intro s ok h1 h2
    simp [stepA, scheduleNextA, h1, Nat.pos_iff_ne_zero.mp h2]
  · intro s ok h1 h2
    simp [stepA, scheduleNextA, h1, Nat.pos_iff_ne_zero.mp h2]

/-- Witness for C3: a started scheduler whose first cycle fails still
gets the 12-hour timer, and likewise for a timer-spawned cycle. -/
theorem c3_refresh_failure_resilience_witness :
    ((runA [EvA.startCall]).isStopping = false ∧
     0 < (runA [EvA.startCall]).activeS ∧
     ((stepA (EvA.cycleEnd true false) (runA [EvA.startCall])).pendingTimers =
        ((runA [EvA.startCall]).nextHandle, SCHEDULE_INTERVAL_MS) ::
          (runA [EvA.startCall]).pendingTimers ∧
      (stepA (EvA.cycleEnd true false) (runA [EvA.startCall])).timeoutId =
        some (runA [EvA.startCall]).nextHandle)) ∧
    ((runA [EvA.startCall, EvA.cycleEnd true true, EvA.timerFire 1]).isStopping = false ∧
     0 < (runA [EvA.startCall, EvA.cycleEnd true true, EvA.timerFire 1]).activeT ∧
     ((stepA (EvA.cycleEnd false false)
         (runA [EvA.startCall, EvA.cycleEnd true true, EvA.timerFire 1])).pendingTimers =
        ((runA [EvA.startCall, EvA.cycleEnd true true, EvA.timerFire 1]).nextHandle,
          SCHEDULE_INTERVAL_MS) ::
          (runA [EvA.startCall, EvA.cycleEnd true true, EvA.timerFire 1]).pendingTimers ∧
      (stepA (EvA.cycleEnd false false)
         (runA [EvA.startCall, EvA.cycleEnd true true, EvA.timerFire 1])).timeoutId =
        some (runA [EvA.startCall, EvA.cycleEnd true true, EvA.timerFire 1]).nextHandle)) :=
  ⟨⟨by decide, by decide,
    c3_refresh_failure_resilience.2.1 (runA [EvA.startCall]) false
      (by decide) (by decide)⟩,
   ⟨by decide, by decide,
    c3_refresh_failure_resilience.2.2
      (runA [EvA.startCall, EvA.cycleEnd true true, EvA.timerFire 1]) false
      (by decide) (by decide)⟩⟩

/-- C4: `stop()` cancels the pending not-yet-fired timer at once and
nulls the handle; it never touches in-flight cycle bookkeeping (a
cycle already in progress is not interrupted); a cycle settling after
`stop()` completes normally (its counters update) but schedules no
following timer; `stop()` on the never-started scheduler changes
nothing but the stopping flag; and an in-flight refresh cycle whose
fetch succeeded always attempts exactly one cache write, whatever the
store transport does. -/
theorem c4_stop_semantics :
    (∀ (s : StateA) (h d : Nat),
      s.timeoutId = some h → s.pendingTimers = [(h, d)] →
        (stepA EvA.stopCall s).pendingTimers = [] ∧
        (stepA EvA.stopCall s).timeoutId = none) ∧
    (∀ s : StateA,
      (stepA EvA.stopCall s).activeS = s.activeS ∧
      (stepA EvA.stopCall s).activeT = s.activeT ∧
      (stepA EvA.stopCall s).begun = s.begun ∧
      (stepA EvA.stopCall s).completed = s.completed) ∧
    (∀ (s : StateA) (awaited ok : Bool),
      s.isStopping = true →
        (stepA (EvA.cycleEnd awaited ok) s).pendingTimers = s.pendingTimers ∧
        (stepA (EvA.cycleEnd awaited ok) s).timeoutId = s.timeoutId) ∧
    (∀ (s : StateA) (ok : Bool),
      s.isStopping = true → 0 < s.activeS →
        (stepA (EvA.cycleEnd true ok) s).activeS = s.activeS - 1 ∧
        (stepA (EvA.cycleEnd true ok) s).completed = s.completed + 1) ∧
    (stepA EvA.stopCall initA = { initA with isStopping := true }) ∧
    (∀ (st : Store) (code : Nat) (d : Json) (sc : RedisComm),
      countSet (refreshCache st (AxiosOutcome.success code d) sc).events = 1) := by
  refine ⟨?_, ?_, ?_, ?_, by decide, ?_⟩
  · intro s h d h1 h2
    simp [stepA, h1, h2]
  · intro s
    simp only [stepA]
    (repeat' split) <;> simp_all
  · intro s aw ok h
    cases aw <;> simp only [stepA, scheduleNextA] <;> (repeat' split) <;> simp_all
  · intro s ok h1 h2
    simp [stepA, scheduleNextA, h1, Nat.pos_iff_ne_zero.mp h2]
  · intro st code d sc
    rcases sc with _ | ms <;>
      simp [refreshCache, redisRepositorySet, fetchStatsFromApi, countSet,
        List.countP_cons]

/-- Witness for C4: a scheduler with one completed cycle and its
12-hour timer pending has that timer cancelled by `stop()`, and a
scheduler stopped during its first in-flight cycle still completes
that cycle without scheduling another. -/
theorem c4_stop_semantics_witness :
    ((runA [EvA.startCall, EvA.cycleEnd true true]).timeoutId = some 1 ∧
     (runA [EvA.startCall, EvA.cycleEnd true true]).pendingTimers =
       [(1, SCHEDULE_INTERVAL_MS)] ∧
     ((stepA EvA.stopCall (runA [EvA.startCall, EvA.cycleEnd true true])).pendingTimers = [] ∧
      (stepA EvA.stopCall (runA [EvA.startCall, EvA.cycleEnd true true])).timeoutId = none)) ∧
    ((runA [EvA.startCall, EvA.stopCall]).isStopping = true ∧
     ((stepA (EvA.cycleEnd true true) (runA [EvA.startCall, EvA.stopCall])).pendingTimers =
        (runA [EvA.startCall, EvA.stopCall]).pendingTimers ∧
      (stepA (EvA.cycleEnd true true) (runA [EvA.startCall, EvA.stopCall])).timeoutId =
        (runA [EvA.startCall, EvA.stopCall]).timeoutId)) ∧
    (0 < (runA [EvA.startCall, EvA.stopCall]).activeS ∧
     ((stepA (EvA.cycleEnd true true) (runA [EvA.startCall, EvA.stopCall])).activeS =
        (runA [EvA.startCall, EvA.stopCall]).activeS - 1 ∧
      (stepA (EvA.cycleEnd true true) (runA [EvA.startCall, EvA.stopCall])).completed =
        (runA [EvA.startCall, EvA.stopCall]).completed + 1)) :=
  ⟨⟨by decide, by decide,
    c4_stop_semantics.1 (runA [EvA.startCall, EvA.cycleEnd true true]) 1
      SCHEDULE_INTERVAL_MS (by decide) (by decide)⟩,
   ⟨by decide,
    c4_stop_semantics.2.2.1 (runA [EvA.startCall, EvA.stopCall]) true true
      (by decide)⟩,
   ⟨by decide,
    c4_stop_semantics.2.2.2.1 (runA [EvA.startCall, EvA.stopCall]) true
      (by decide) (by decide)⟩⟩

/-- C6: `start()` on the idle scheduler of `ethos-stats-scheduler.ts`
begins the first refresh cycle within the call and has not returned
while that cycle is in flight; every `start()` call not yet returned
is awaiting an in-flight cycle (an exact accounting preserved by every
step); an awaited cycle's completion resolves its `start()` in the
same step; and on the trace start-then-complete, `start()` has
returned exactly when the first cycle has completed. -/
theorem c6_start_awaits_first_cycle :
    ((stepA EvA.startCall initA).begun = 1 ∧
     (stepA EvA.startCall initA).activeS = 1 ∧
     (stepA EvA.startCall initA).returnedStarts = 0) ∧
    (∀ (s : StateA) (e : EvA),
      s.calls = s.returnedStarts + s.activeS →
        (stepA e s).calls = (stepA e s).returnedStarts + (stepA e s).activeS) ∧
    (∀ (s : StateA) (ok : Bool),
      0 < s.activeS →
        (stepA (EvA.cycleEnd true ok) s).returnedStarts = s.returnedStarts + 1 ∧
        (stepA (EvA.cycleEnd true ok) s).completed = s.completed + 1) ∧
    ((runA [EvA.startCall, EvA.cycleEnd true true]).returnedStarts = 1 ∧
     (runA [EvA.startCall, EvA.cycleEnd true true]).completed = 1) := by
  refine ⟨by decide, ?_, ?_, by decide⟩
  · intro s e h
    cases e <;> simp only [stepA, scheduleNextA] <;> (repeat' split) <;>
      (try simp_all) <;> omega
  · intro s ok h
    simp [stepA, scheduleNextA, Nat.pos_iff_ne_zero.mp h]
    split <;> simp

/-- Witness for C6: the accounting invariant applied to the very first
`start()` step, and the resolution rule applied to the state with the
first cycle in flight. -/
theorem c6_start_awaits_first_cycle_witness :
    (initA.calls = initA.returnedStarts + initA.activeS ∧
     (stepA EvA.startCall initA).calls =
       (stepA EvA.startCall initA).returnedStarts +
         (stepA EvA.startCall initA).activeS) ∧
    (0 < (runA [EvA.startCall]).activeS ∧
     ((stepA (EvA.cycleEnd true true) (runA [EvA.startCall])).returnedStarts =
        (runA [EvA.startCall]).returnedStarts + 1 ∧
      (stepA (EvA.cycleEnd true true) (runA [EvA.startCall])).completed =
        (runA [EvA.startCall]).completed + 1)) :=
  ⟨⟨by decide, c6_start_awaits_first_cycle.2.1 initA EvA.startCall (by decide)⟩,
   ⟨by decide,
    c6_start_awaits_first_cycle.2.2.1 (runA [EvA.startCall]) true (by decide)⟩⟩

/-- C9: after `stop()` on the scheduler of `ethos-stats-scheduler.ts`,
no trace of further events — `start()` calls, timer firings, cycle
settlements in any order — ever begins another refresh cycle, because
the stopping flag set by `stop()` is never cleared; the scheduler is
not restartable within one process. -/
theorem c9_stop_is_permanent :
    ∀ (s : StateA) (t : List EvA),
      (foldA t (stepA EvA.stopCall s)).begun = s.begun ∧
      (foldA t (stepA EvA.stopCall s)).isStopping = true := by
  intro s t
  have h1 : (stepA EvA.stopCall s).isStopping = true := by
    simp only [stepA]
    (repeat' split) <;> simp_all
  have h2 : (stepA EvA.stopCall s).begun = s.begun := by
    simp only [stepA]
    (repeat' split) <;> simp_all
  have hf := stoppedA_fold t (stepA EvA.stopCall s) h1
  exact ⟨hf.2.trans h2, hf.1⟩
